import Mathlib

/-!
Verification model of the two-Kinect capture program (examples/Protonect.cpp).

The C++ program is shallowly embedded:
- `strtol` / `atoi` are modelled over `Int`, with the C conversion of a
  negative `long` into the unsigned 64-bit `size_t` made explicit
  (`toSizeT`, reduction modulo 2^64).
- the argument loop of `main` (lines 175-263) becomes `argLoop`, a
  recursion over the token list threading the mutable flags
  (`pipeline_1`/`pipeline_2` presence, `deviceId`, `viewer_enabled`,
  `enable_rgb`, `enable_depth`, `framemax`).  The build modelled is the
  one without OpenGL/OpenCL/CUDA support, where the backend tokens
  `gl`, `cl`, `clkde`, `cuda`, `cudakde` print an unsupported message
  and change nothing, and only `cpu` installs pipelines; note that the
  `cl`/`clkde` branches reference an undeclared variable `pipeline`, so
  a build with OpenCL support would not even compile.
- the post-loop part of `main` (stream check, device discovery, serial
  selection, device open, lines 266-299) becomes `sessionSetup`, which
  also returns the trace of device calls it performs, so that the
  presence or absence of `close` calls on the error path is observable.
- the signal handlers (`sigint_handler` lines 55-57, `sigusr1_handler`
  lines 68-84) become functions on a session state; `sigusr1_handler`
  additionally returns the list of device start/stop calls it performs
  on the signal-handling path.
- the per-device worker `running` (lines 333-427) is split into the
  loop-body action trace `loopBodyActions` (lines 381-423) and the
  fuel-indexed loop `workerRun` reproducing the guard
  `!protonect_shutdown && (framemax == (size_t)-1 || framecount < framemax)`.
-/

/-- `LONG_MAX` for the 64-bit `long` returned by `strtol`. -/
def LONG_MAX : Nat := 2 ^ 63 - 1

/-- The value `(size_t)-1`, the sentinel meaning "no frame limit"
(`static size_t framemax = -1;`, line 53). -/
def SIZE_MAX : Nat := 2 ^ 64 - 1

/-- C `isspace` in the default locale. -/
def isSpaceChar (c : Char) : Bool :=
  c.toNat = 32 || c.toNat = 9 || c.toNat = 10 || c.toNat = 11 || c.toNat = 12 || c.toNat = 13

/-- Value of a character as a digit in bases up to 16, as `strtol` reads it. -/
def digitVal (c : Char) : Option Nat :=
  if c.isDigit then some (c.toNat - 48)
  else if 97 ≤ c.toNat && c.toNat ≤ 102 then some (c.toNat - 97 + 10)
  else if 65 ≤ c.toNat && c.toNat ≤ 70 then some (c.toNat - 65 + 10)
  else none

/-- Skip leading whitespace, as `strtol` does. -/
def dropSpaces : List Char → List Char
  | [] => []
  | c :: cs => if isSpaceChar c then dropSpaces cs else c :: cs

/-- Consume an optional sign; returns whether the number is negated. -/
def splitSign : List Char → Bool × List Char
  | '-' :: cs => (true, cs)
  | '+' :: cs => (false, cs)
  | cs => (false, cs)

/-- Whether a character is a valid digit in the given base. -/
def isDigitInBase (base : Nat) (c : Char) : Bool :=
  match digitVal c with
  | some v => v < base
  | none => false

/-- Base detection of `strtol` when called with base 0: a `0x`/`0X`
prefix followed by a hex digit selects base 16, a leading `0` selects
base 8, anything else base 10. -/
def selectBase0 (cs : List Char) : Nat × List Char :=
  match cs with
  | '0' :: x :: d :: rest =>
    if (x = 'x' || x = 'X') && isDigitInBase 16 d then (16, d :: rest)
    else (8, '0' :: x :: d :: rest)
  | '0' :: rest => (8, '0' :: rest)
  | _ => (10, cs)

/-- Accumulate the longest valid digit prefix in the given base. -/
def accDigits (base : Nat) : List Char → Nat → Nat
  | [], acc => acc
  | c :: cs, acc =>
    match digitVal c with
    | some v => if v < base then accDigits base cs (acc * base + v) else acc
    | none => acc

/-- `strtol(s, NULL, base0)` for `base0` equal to 0 or 10, over
mathematical integers with the `LONG_MAX`/`LONG_MIN` clamping of C. -/
def strtolBase (base0 : Nat) (s : String) : Int :=
  let cs := dropSpaces s.data
  let p := splitSign cs
  let q := if base0 = 0 then selectBase0 p.2 else (base0, p.2)
  let mag := accDigits q.1 q.2 0
  if p.1 then
    if 2 ^ 63 < mag then -(2 ^ 63 : Int) else -(mag : Int)
  else
    if LONG_MAX < mag then (LONG_MAX : Int) else (mag : Int)

/-- `strtol(s, NULL, 0)` as used at line 254. -/
def strtol (s : String) : Int := strtolBase 0 s

/-- `arg.find(p) == 0`, the check that `p` begins the string, as used
at line 181. -/
def strHasPre (p s : String) : Bool := List.isPrefixOf p.data s.data

/-- `atoi(s)` as used at line 186. -/
def atoi (s : String) : Int := strtolBase 10 s

/-- Conversion of a C `long` value into `size_t` (unsigned 64-bit):
reduction modulo 2^64, performed implicitly by the assignment
`framemax = strtol(...)` at line 254. -/
def toSizeT (n : Int) : Nat := (n % (2 ^ 64 : Int)).toNat

/-- The mutable configuration state threaded through the argument loop
of `main`: whether `pipeline_1`/`pipeline_2` are non-NULL (they are
always assigned together), `deviceId`, and the global flags of lines
49-53. -/
structure ArgState where
  pipelinesSet : Bool
  deviceId : Int
  viewer_enabled : Bool
  enable_rgb : Bool
  enable_depth : Bool
  framemax : Nat
deriving Repr, DecidableEq

/-- Initial values: `pipeline_1 = pipeline_2 = NULL`, `deviceId = -1`,
`viewer_enabled = true`, `enable_rgb = true`, `enable_depth = true`,
`framemax = (size_t)-1`. -/
def initArgState : ArgState :=
  { pipelinesSet := false
    deviceId := -1
    viewer_enabled := true
    enable_rgb := true
    enable_depth := true
    framemax := SIZE_MAX }

/-- Outcome of the argument loop: an early `return 0` on help/version,
an early `return -1` on a configuration error, a read of the NULL
entry `argv[argc]` (which the C code passes to `strtol`, undefined
behaviour, modelled as a distinguished outcome of the total embedding),
or normal fall-through with the final state. -/
inductive ParseOutcome where
  | exitHelp
  | exitError (msg : String)
  | nullArgRead
  | finished (s : ArgState)
deriving Repr, DecidableEq

/-- The argument loop of `main`, lines 175-263, one constructor case per
`else if` branch in source order.  The `-frames` branch (lines 252-259)
increments `argI` and reads `argv[argI]` with no bound check: when
`-frames` is the last token this reads `argv[argc]`, the NULL entry,
modelled as `ParseOutcome.nullArgRead`.  Otherwise it assigns
`framemax = strtol(value, NULL, 0)` where `framemax` is `size_t`, and
rejects when the resulting unsigned value satisfies `framemax <= 0`. -/
def argLoop : List String → ArgState → ParseOutcome
  | [], s => ParseOutcome.finished s
  | arg :: rest, s =>
    if arg = "-help" || arg = "--help" || arg = "-h" || arg = "-v" ||
       arg = "--version" || arg = "-version" then
      ParseOutcome.exitHelp
    else if strHasPre "-gpu=" arg then
      if s.pipelinesSet then
        ParseOutcome.exitError "-gpu must be specified before pipeline argument"
      else
        argLoop rest { s with deviceId := atoi (arg.drop 5) }
    else if arg = "cpu" then
      argLoop rest { s with pipelinesSet := true }
    else if arg = "gl" || arg = "cl" || arg = "clkde" || arg = "cuda" || arg = "cudakde" then
      argLoop rest s
    else if arg.data.all Char.isDigit then
      argLoop rest s
    else if arg = "-noviewer" || arg = "--noviewer" then
      argLoop rest { s with viewer_enabled := false }
    else if arg = "-norgb" || arg = "--norgb" then
      argLoop rest { s with enable_rgb := false }
    else if arg = "-nodepth" || arg = "--nodepth" then
      argLoop rest { s with enable_depth := false }
    else if arg = "-frames" then
      match rest with
      | [] => ParseOutcome.nullArgRead
      | v :: rest2 =>
        let fm := toSizeT (strtol v)
        if fm ≤ 0 then ParseOutcome.exitError "invalid frame count"
        else argLoop rest2 { s with framemax := fm }
    else
      argLoop rest s

/-- External device environment seen by `main` after parsing: the number
of connected devices, the serial at each enumeration index, and whether
the i-th `openDevice` call returns a non-NULL device. -/
structure DeviceEnv where
  numDevices : Nat
  serials : Nat → String
  openOk : Nat → Bool

/-- A call performed on a device or on the enumeration, recorded so the
error paths are observable.  Slots are numbered 1 and 2 after
`dev_1`/`dev_2`. -/
inductive DevCall where
  | openDev (slot : Nat) (serial : String) (withPipeline : Bool) (ok : Bool)
  | closeDev (slot : Nat)
  | stopDev (slot : Nat)
  | startDev (slot : Nat)
deriving Repr, DecidableEq

/-- Outcome of the post-parse part of `main` (lines 266-300). -/
inductive SetupOutcome where
  | configError
  | noDeviceError
  | insufficientError
  | openError (serial_1 serial_2 : String)
  | ready (serial_1 serial_2 : String)
deriving Repr, DecidableEq

/-- Process exit code attached to each setup outcome by `main`:
every error branch is `return -1`. -/
def setupExitCode : SetupOutcome → Int
  | SetupOutcome.configError => -1
  | SetupOutcome.noDeviceError => -1
  | SetupOutcome.insufficientError => -1
  | SetupOutcome.openError _ _ => -1
  | SetupOutcome.ready _ _ => 0

/-- The serial pair selected by `main`, when discovery got that far. -/
def selectedPair : SetupOutcome → Option (String × String)
  | SetupOutcome.openError a b => some (a, b)
  | SetupOutcome.ready a b => some (a, b)
  | _ => none

/-- Lines 266-300 of `main`: reject when both streams are disabled,
fail on 0 or exactly 1 enumerated device, otherwise select the serials
at enumeration indices 0 and 1 (`serial_1`/`serial_2` are still empty
at line 281, the serial-number argument branch being commented out),
open both devices (with the pipelines when both are set, else with the
default backend), and on `dev_1 == 0 || dev_2 == 0` return -1.  The
error return at lines 296-299 performs no `close` call, which the
returned trace records. -/
def sessionSetup (s : ArgState) (env : DeviceEnv) : SetupOutcome × List DevCall :=
  if !s.enable_rgb && !s.enable_depth then (SetupOutcome.configError, [])
  else if env.numDevices = 0 then (SetupOutcome.noDeviceError, [])
  else if env.numDevices = 1 then (SetupOutcome.insufficientError, [])
  else
    let serial_1 := env.serials 0
    let serial_2 := env.serials 1
    let ok1 := env.openOk 0
    let ok2 := env.openOk 1
    let calls := [DevCall.openDev 1 serial_1 s.pipelinesSet ok1,
                  DevCall.openDev 2 serial_2 s.pipelinesSet ok2]
    if !ok1 || !ok2 then (SetupOutcome.openError serial_1 serial_2, calls)
    else (SetupOutcome.ready serial_1 serial_2, calls)

/-- State of one `Freenect2Device` as far as the orchestration layer
observes it: whether its streams are running (`start` sets it,
`stop` clears it). -/
structure DeviceState where
  streaming : Bool
deriving Repr, DecidableEq

/-- The process-wide session state: the globals `protonect_shutdown`
(line 45), `protonect_paused` (line 59) and the two device pointers
`devtopause_1`/`devtopause_2` (lines 60-61, `none` models NULL). -/
structure SessionSt where
  protonect_shutdown : Bool
  protonect_paused : Bool
  devtopause_1 : Option DeviceState
  devtopause_2 : Option DeviceState
deriving Repr, DecidableEq

/-- `sigint_handler` (lines 55-57): sets `protonect_shutdown = true`. -/
def sigint_handler (st : SessionSt) : SessionSt :=
  { st with protonect_shutdown := true }

/-- `sigusr1_handler` (lines 68-84): returns unchanged when either
device pointer is NULL; otherwise, directly on the signal-handling
path, calls `start()` on both devices when `protonect_paused` holds and
`stop()` on both otherwise, then flips `protonect_paused`.  The second
component is the list of device calls the handler itself performs. -/
def sigusr1_handler (st : SessionSt) : SessionSt × List DevCall :=
  match st.devtopause_1, st.devtopause_2 with
  | some _, some _ =>
    if st.protonect_paused then
      ({ st with
          devtopause_1 := some { streaming := true }
          devtopause_2 := some { streaming := true }
          protonect_paused := !st.protonect_paused },
       [DevCall.startDev 1, DevCall.startDev 2])
    else
      ({ st with
          devtopause_1 := some { streaming := false }
          devtopause_2 := some { streaming := false }
          protonect_paused := !st.protonect_paused },
       [DevCall.stopDev 1, DevCall.stopDev 2])
  | _, _ => (st, [])

/-- Line 417: `protonect_shutdown = protonect_shutdown || viewer.render()`. -/
def viewerShutdownUpdate (render : Bool) (st : SessionSt) : SessionSt :=
  { st with protonect_shutdown := st.protonect_shutdown || render }

/-- The operations that touch the shared session state after session
start: the two signal handlers and the viewer-render update performed
inside a worker iteration (line 417, with the boolean returned by
`viewer.render()`). -/
inductive SessionOp where
  | sigint
  | sigusr1
  | viewerRender (closeRequested : Bool)
deriving Repr, DecidableEq

/-- Effect of each session operation on the shared state. -/
def applyOp : SessionOp → SessionSt → SessionSt
  | SessionOp.sigint, st => sigint_handler st
  | SessionOp.sigusr1, st => (sigusr1_handler st).1
  | SessionOp.viewerRender r, st => viewerShutdownUpdate r st

/-- A concrete session state with both devices open and streaming,
not paused: the state right after both workers have started their
streams. -/
def openUnpausedSt : SessionSt :=
  { protonect_shutdown := false
    protonect_paused := false
    devtopause_1 := some { streaming := true }
    devtopause_2 := some { streaming := true } }

/-- A concrete session state with both devices open but not streaming
and not paused: the window between the pointer assignments at lines
302-303 and the workers calling `start()` at line 345, or the state
after `startStreams` fails at line 350 and a worker returns while its
device stays open. -/
def openPreStartSt : SessionSt :=
  { protonect_shutdown := false
    protonect_paused := false
    devtopause_1 := some { streaming := false }
    devtopause_2 := some { streaming := false } }

/-- One observable action of a worker loop iteration (`running`,
lines 381-423). -/
inductive WorkerAction where
  | waitNewFrame (ok : Bool)
  | registrationApply
  | viewerAddFrame (name : String)
  | viewerRenderCall
  | releaseFrames
deriving Repr, DecidableEq

/-- Number of `listener.release(frames)` calls in an action trace. -/
def releaseCount : List WorkerAction → Nat
  | [] => 0
  | WorkerAction.releaseFrames :: rest => releaseCount rest + 1
  | _ :: rest => releaseCount rest

/-- The action trace of one iteration of the worker loop body, lines
381-423, for the build with viewer support, given the three
configuration flags and whether `waitForNewFrame` succeeded.  On
timeout the worker prints and returns (no release: no frame set was
acquired).  On success: registration when both streams are enabled
(lines 391-394); on the headless path (lines 397-403) a release then
`continue`; on the viewer path (lines 405-421) the enabled frames are
forwarded, `viewer.render()` runs, and the release at line 421
follows. -/
def loopBodyActions (enable_rgb enable_depth viewer_enabled acquired : Bool) :
    List WorkerAction :=
  WorkerAction.waitNewFrame acquired ::
  (if !acquired then []
   else
    (if enable_rgb && enable_depth then [WorkerAction.registrationApply] else [])
    ++ (if !viewer_enabled then [WorkerAction.releaseFrames]
        else
          (if enable_rgb then [WorkerAction.viewerAddFrame "RGB"] else [])
          ++ (if enable_depth then
                [WorkerAction.viewerAddFrame "ir", WorkerAction.viewerAddFrame "depth"]
              else [])
          ++ (if enable_rgb && enable_depth then
                [WorkerAction.viewerAddFrame "registered"]
              else [])
          ++ [WorkerAction.viewerRenderCall, WorkerAction.releaseFrames]))

/-- Result of running the worker loop with bounded fuel:
`exited c w` means the guard at line 381 failed after `c` frames were
counted and `w` waits were performed (the loop exits normally);
`timeoutExit c w` means `waitForNewFrame` failed on the `w`-th wait and
the worker returned at line 384; `outOfFuel` means the fuel bound was
reached with the loop still running. -/
inductive RunResult where
  | exited (framecount waits : Nat)
  | timeoutExit (framecount waits : Nat)
  | outOfFuel
deriving Repr, DecidableEq

/-- The worker loop of `running`, lines 381-423, abstracted over the
environment: `sf k` is the value of the shared `protonect_shutdown`
flag observed at the guard evaluation of iteration `k` (the flag is
written asynchronously by the signal handler and by line 417), and
`af k` tells whether `waitForNewFrame` succeeds at iteration `k`.
The guard is the literal line 381 condition
`!protonect_shutdown && (framemax == (size_t)-1 || framecount < framemax)`;
each iteration that passes the guard performs exactly one wait, and on
success `framecount` is incremented once (line 396). -/
def workerRun (sf af : Nat → Bool) (framemax : Nat) :
    Nat → Nat → Nat → RunResult
  | 0, _, _ => RunResult.outOfFuel
  | fuel + 1, k, framecount =>
    if sf k = false ∧ (framemax = SIZE_MAX ∨ framecount < framemax) then
      if af k then workerRun sf af framemax fuel (k + 1) (framecount + 1)
      else RunResult.timeoutExit framecount (k + 1)
    else RunResult.exited framecount k

/-- A device environment with two devices where the first open call
succeeds and the second fails. -/
def partialFailEnv : DeviceEnv :=
  { numDevices := 2
    serials := fun i => if i = 0 then "A1" else "B2"
    openOk := fun i => i = 0 }

/-- A device environment with no connected device. -/
def noDeviceEnv : DeviceEnv :=
  { numDevices := 0
    serials := fun _ => ""
    openOk := fun _ => false }

/-- A device environment with exactly one connected device. -/
def oneDeviceEnv : DeviceEnv :=
  { numDevices := 1
    serials := fun _ => "A1"
    openOk := fun _ => true }

/-- Whether a device call is a `close()`. -/
def isCloseCall : DevCall → Bool
  | DevCall.closeDev _ => true
  | _ => false

lemma sigusr1_preserves_shutdown (st : SessionSt) :
    ((sigusr1_handler st).1).protonect_shutdown = st.protonect_shutdown := by
  unfold sigusr1_handler
  cases st.devtopause_1 <;> cases st.devtopause_2 <;>
    first
    | rfl
    | (split <;> first | rfl | (split <;> rfl))

/-- Claim C1: the claim states that the pause trigger handler only flips
an intent flag and that the actual device stop/start calls happen in a
separate non-signal context.  The code does the opposite:
`sigusr1_handler` itself calls `stop()` on both devices (when not
paused) or `start()` on both (when paused), directly on the
signal-handling path, and flips `protonect_paused` there.  The comment
above the handler (lines 63-67) itself says this should be done in
another thread. -/
theorem C1_sigusr1_executes_stop_start_in_handler :
    (sigusr1_handler openUnpausedSt).2 = [DevCall.stopDev 1, DevCall.stopDev 2] ∧
    (sigusr1_handler openUnpausedSt).2 ≠ [] ∧
    (sigusr1_handler { openUnpausedSt with protonect_paused := true }).2 =
      [DevCall.startDev 1, DevCall.startDev 2] := by
  exact ⟨rfl, by decide, rfl⟩

/-- Claim C2: in every iteration of the worker loop in which a FrameSet
is acquired (`waitForNewFrame` succeeds), `listener.release(frames)` is
called exactly once before the next wait, on the viewer path and on the
headless path alike; when the wait fails no frame set was acquired and
no release happens. -/
theorem C2_release_exactly_once (rgb depth viewer : Bool) :
    releaseCount (loopBodyActions rgb depth viewer true) = 1 ∧
    releaseCount (loopBodyActions rgb depth viewer false) = 0 := by
  cases rgb <;> cases depth <;> cases viewer <;> exact ⟨rfl, rfl⟩

/-- Claim C3: once `protonect_shutdown` is true, no session operation
(the SIGINT handler, the SIGUSR1 pause handler, or the viewer-render
update that ORs the viewer close request into the flag) ever resets it
to false, over any sequence of such operations. -/
theorem C3_shutdown_monotone (ops : List SessionOp) (st : SessionSt)
    (h : st.protonect_shutdown = true) :
    (ops.foldl (fun s op => applyOp op s) st).protonect_shutdown = true := by
  induction ops generalizing st with
  | nil => exact h
  | cons op rest ih =>
    refine ih _ ?_
    cases op with
    | sigint => rfl
    | sigusr1 =>
      show ((sigusr1_handler st).1).protonect_shutdown = true
      rw [sigusr1_preserves_shutdown]
      exact h
    | viewerRender r => simp [applyOp, viewerShutdownUpdate, h]

/-- Witness for C3 at a concrete state and operation sequence. -/
theorem C3_shutdown_monotone_witness :
    (([SessionOp.sigusr1, SessionOp.viewerRender false,
       SessionOp.sigint]).foldl (fun s op => applyOp op s)
       (sigint_handler openUnpausedSt)).protonect_shutdown = true :=
  C3_shutdown_monotone _ _ rfl

/-- Claim C4: the loop guard at line 381 reads `protonect_shutdown` at
every iteration; if the flag is observed true at the guard of iteration
`k`, the worker exits immediately with no further `waitForNewFrame`
call (the wait count stays `k`) and no further frame processed (the
frame count stays `c`), for any frame limit and any remaining fuel. -/
theorem C4_shutdown_checked_each_iteration (sf af : Nat → Bool)
    (framemax fuel k c : Nat) (h : sf k = true) :
    workerRun sf af framemax (fuel + 1) k c = RunResult.exited c k := by
  unfold workerRun
  simp [h]

/-- Witness for C4: shutdown observed at the very first guard check. -/
theorem C4_shutdown_checked_witness :
    (fun _ => true : Nat → Bool) 0 = true ∧
    workerRun (fun _ => true) (fun _ => true) 5 7 0 0 = RunResult.exited 0 0 :=
  ⟨rfl, C4_shutdown_checked_each_iteration (fun _ => true) (fun _ => true) 5 6 0 0 rfl⟩

/-- Claim C5 counterexample: with two devices where the first open
succeeds and the second fails, `main` reaches the open-error exit
(lines 296-299) with nonzero exit code, the first device having been
opened, yet the device-call trace contains no `close()` call at all:
the already-opened device is not closed on the error path, contrary to
the claim. -/
theorem C5_counterexample_no_close_on_error :
    (sessionSetup initArgState partialFailEnv).1 = SetupOutcome.openError "A1" "B2" ∧
    setupExitCode (sessionSetup initArgState partialFailEnv).1 ≠ 0 ∧
    DevCall.openDev 1 "A1" false true ∈ (sessionSetup initArgState partialFailEnv).2 ∧
    (sessionSetup initArgState partialFailEnv).2.filter isCloseCall = [] := by
  refine ⟨rfl, by decide, ?_, rfl⟩
  exact List.mem_cons_self _ _

/-- Claim C5 amended: on partial open failure (one open call succeeds
and the other fails, in either order) the program exits with the
device-open error and nonzero exit code, but performs no `close()`
call on the already-opened device: the handle is leaked on this error
path. -/
theorem C5_amended_partial_failure_leaks_handle (s : ArgState) (env : DeviceEnv)
    (hs : ¬(s.enable_rgb = false ∧ s.enable_depth = false))
    (hn : 2 ≤ env.numDevices)
    (hpart : env.openOk 0 ≠ env.openOk 1) :
    (sessionSetup s env).1 = SetupOutcome.openError (env.serials 0) (env.serials 1) ∧
    setupExitCode (sessionSetup s env).1 ≠ 0 ∧
    (sessionSetup s env).2.filter isCloseCall = [] := by
  have hb : (!s.enable_rgb && !s.enable_depth) = false := by
    cases hr : s.enable_rgb <;> cases hd : s.enable_depth <;> simp_all
  have h0 : env.numDevices ≠ 0 := by omega
  have hone : env.numDevices ≠ 1 := by omega
  cases h1 : env.openOk 0 <;> cases h2 : env.openOk 1
  · exact absurd (h1.trans h2.symm) hpart
  · simp [sessionSetup, hb, h0, hone, h1, h2, setupExitCode, isCloseCall]
  · simp [sessionSetup, hb, h0, hone, h1, h2, setupExitCode, isCloseCall]
  · exact absurd (h1.trans h2.symm) hpart

/-- Witness for the amended C5 at a concrete configuration and
environment. -/
theorem C5_amended_witness :
    (sessionSetup initArgState partialFailEnv).1 =
      SetupOutcome.openError (partialFailEnv.serials 0) (partialFailEnv.serials 1) ∧
    setupExitCode (sessionSetup initArgState partialFailEnv).1 ≠ 0 ∧
    (sessionSetup initArgState partialFailEnv).2.filter isCloseCall = [] :=
  C5_amended_partial_failure_leaks_handle initArgState partialFailEnv
    (by decide) (by decide) (by decide)

/-- Claim C6: discovery is three-valued.  With 0 devices `main` exits
with the no-device error and nonzero code; with exactly 1 device it
exits with the insufficient-devices error and nonzero code; with 2 or
more devices the serials at enumeration indices 0 and 1 are selected
for the pair (whether or not the subsequent opens succeed). -/
theorem C6_discovery_three_valued (s : ArgState) (env : DeviceEnv)
    (hs : ¬(s.enable_rgb = false ∧ s.enable_depth = false)) :
    (env.numDevices = 0 →
      (sessionSetup s env).1 = SetupOutcome.noDeviceError ∧
      setupExitCode (sessionSetup s env).1 ≠ 0) ∧
    (env.numDevices = 1 →
      (sessionSetup s env).1 = SetupOutcome.insufficientError ∧
      setupExitCode (sessionSetup s env).1 ≠ 0) ∧
    (2 ≤ env.numDevices →
      selectedPair (sessionSetup s env).1 = some (env.serials 0, env.serials 1)) := by
  have hb : (!s.enable_rgb && !s.enable_depth) = false := by
    cases hr : s.enable_rgb <;> cases hd : s.enable_depth <;> simp_all
  refine ⟨fun h0 => ?_, fun h1 => ?_, fun h2 => ?_⟩
  · simp [sessionSetup, hb, h0, setupExitCode]
  · simp [sessionSetup, hb, h1, setupExitCode]
  · have h0 : env.numDevices ≠ 0 := by omega
    have hone : env.numDevices ≠ 1 := by omega
    by_cases hop : (!env.openOk 0 || !env.openOk 1) = true
    · simp [sessionSetup, hb, h0, hone, hop, selectedPair]
    · simp [sessionSetup, hb, h0, hone, hop, selectedPair]

/-- Witness for C6 covering all three discovery outcomes on concrete
environments. -/
theorem C6_discovery_witness :
    ((sessionSetup initArgState noDeviceEnv).1 = SetupOutcome.noDeviceError ∧
      setupExitCode (sessionSetup initArgState noDeviceEnv).1 ≠ 0) ∧
    ((sessionSetup initArgState oneDeviceEnv).1 = SetupOutcome.insufficientError ∧
      setupExitCode (sessionSetup initArgState oneDeviceEnv).1 ≠ 0) ∧
    selectedPair (sessionSetup initArgState partialFailEnv).1 =
      some (partialFailEnv.serials 0, partialFailEnv.serials 1) :=
  ⟨(C6_discovery_three_valued initArgState noDeviceEnv (by decide)).1 rfl,
   (C6_discovery_three_valued initArgState oneDeviceEnv (by decide)).2.1 rfl,
   (C6_discovery_three_valued initArgState partialFailEnv (by decide)).2.2 (by decide)⟩

/-- Claim C7 counterexample: the claim asserts the pause/resume round
trip from any session state where both devices are open.  At the
reachable state where both devices are open but not yet streaming
(between the pointer assignments at lines 302-303 and the workers
calling `start()` at line 345, or after a failed `startStreams`), two
triggers do not restore the state: the first calls `stop()` on both
already-stopped devices and sets paused, the second calls `start()` on
both and clears paused, leaving both devices streaming where they were
not before.  The paused flag alone does return to its original
value. -/
theorem C7_counterexample_open_not_streaming :
    openPreStartSt.devtopause_1 = some { streaming := false } ∧
    openPreStartSt.devtopause_2 = some { streaming := false } ∧
    (sigusr1_handler (sigusr1_handler openPreStartSt).1).1 ≠ openPreStartSt ∧
    (sigusr1_handler (sigusr1_handler openPreStartSt).1).1.devtopause_1 =
      some { streaming := true } ∧
    (sigusr1_handler (sigusr1_handler openPreStartSt).1).1.protonect_paused =
      openPreStartSt.protonect_paused := by
  exact ⟨rfl, rfl, by decide, rfl, rfl⟩

/-- Claim C7 amended: from any session state where both device pointers
are set and each device streams exactly when the session is not paused
(the steady state the pause controller maintains during capture),
applying the pause trigger twice restores the session state exactly:
both streaming states and the paused flag return to their original
values.  In both-open states violating that coupling the round trip
fails, as the counterexample shows. -/
theorem C7_pause_resume_roundtrip (st : SessionSt) (d1 d2 : DeviceState)
    (h1 : st.devtopause_1 = some d1) (h2 : st.devtopause_2 = some d2)
    (hc1 : d1.streaming = !st.protonect_paused)
    (hc2 : d2.streaming = !st.protonect_paused) :
    (sigusr1_handler (sigusr1_handler st).1).1 = st := by
  obtain ⟨b1⟩ := d1
  obtain ⟨b2⟩ := d2
  obtain ⟨sh, p, dp1, dp2⟩ := st
  simp only at h1 h2 hc1 hc2
  subst h1 h2 hc1 hc2
  cases p <;> rfl

/-- Witness for C7 from the open, streaming, unpaused state. -/
theorem C7_pause_resume_witness :
    (sigusr1_handler (sigusr1_handler openUnpausedSt).1).1 = openUnpausedSt :=
  C7_pause_resume_roundtrip openUnpausedSt { streaming := true }
    { streaming := true } rfl rfl rfl rfl

lemma workerRun_limit_aux (N : Nat) (hN : N ≠ SIZE_MAX) :
    ∀ fuel k c, c + fuel = N + 1 → c ≤ N →
      workerRun (fun _ => false) (fun _ => true) N fuel k c =
        RunResult.exited N (k + (N - c)) := by
  intro fuel
  induction fuel generalizing N with
  | zero => intro k c hfc hcN; omega
  | succ f ih =>
    intro k c hfc hcN
    unfold workerRun
    by_cases hc : c < N
    · rw [if_pos ⟨rfl, Or.inr hc⟩, if_pos rfl,
        ih N hN (k + 1) (c + 1) (by omega) (by omega)]
      congr 1
      omega
    · have hceq : c = N := by omega
      subst hceq
      rw [if_neg]
      · congr 1
        omega
      · rintro ⟨-, hor⟩
        rcases hor with h | h
        · exact hN h
        · omega

/-- Claim C8: with a configured frame limit N (positive and distinct
from the `(size_t)-1` sentinel, as any value accepted by the `-frames`
parser is), a worker that never observes shutdown and never times out
processes exactly N FrameSets, incrementing its count once per
acquired set, and then exits the loop; with no limit configured
(`framemax == (size_t)-1`) the count never terminates the loop: the
run consumes any amount of fuel without ever exiting. -/
theorem C8_frame_limit_exact (N : Nat) (h0 : 0 < N) (hN : N ≠ SIZE_MAX) :
    workerRun (fun _ => false) (fun _ => true) N (N + 1) 0 0 =
      RunResult.exited N N ∧
    ∀ fuel k c, workerRun (fun _ => false) (fun _ => true) SIZE_MAX fuel k c =
      RunResult.outOfFuel := by
  constructor
  · have h := workerRun_limit_aux N hN (N + 1) 0 0 (by omega) (by omega)
    simpa using h
  · intro fuel
    induction fuel with
    | zero => intro k c; rfl
    | succ f ih =>
      intro k c
      unfold workerRun
      rw [if_pos ⟨rfl, Or.inl rfl⟩, if_pos rfl]
      exact ih (k + 1) (c + 1)

/-- Witness for C8 with the limit 3. -/
theorem C8_frame_limit_witness :
    0 < 3 ∧ (3 : Nat) ≠ SIZE_MAX ∧
    workerRun (fun _ => false) (fun _ => true) 3 4 0 0 = RunResult.exited 3 3 :=
  ⟨by decide, by decide, (C8_frame_limit_exact 3 (by decide) (by decide)).1⟩

/-- Claim C9: the claim states that every non-positive or unparsable
`-frames` value, including negative values, is rejected.  In the code
`framemax` is `size_t`: the negative `long` returned by `strtol` wraps
to a huge unsigned value, and the guard `framemax <= 0` only catches
zero.  Evaluating the parser: `-frames -5` is accepted and yields
`framemax = 2^64 - 5`, while `-frames 0` and the unparsable
`-frames abc` (whose `strtol` value is 0) are rejected. -/
theorem C9_negative_frames_accepted :
    argLoop ["-frames", "-5"] initArgState =
      ParseOutcome.finished { initArgState with framemax := 2 ^ 64 - 5 } ∧
    argLoop ["-frames", "0"] initArgState =
      ParseOutcome.exitError "invalid frame count" ∧
    argLoop ["-frames", "abc"] initArgState =
      ParseOutcome.exitError "invalid frame count" := by
  refine ⟨?_, ?_, ?_⟩ <;> rfl

/-- Claim C10: when `-frames` is the token the argument loop is
processing and no token follows it, the code increments `argI` past the
end and hands `argv[argc]` (the NULL entry) to `strtol` with no guard;
in the total embedding the out-of-range read is the distinguished
`nullArgRead` outcome, reached from every parser state. -/
theorem C10_frames_last_token_reads_past_end (s : ArgState) :
    argLoop ["-frames"] s = ParseOutcome.nullArgRead := by
  rfl
